import Mathlib

/-!
Verification of the LureVision per-pixel aquatic-vision pipeline.

The definitions below are a shallow embedding of the TypeScript source:
`src/lib/aquaticVision.ts` (class `LureVisionProcessor`),
`src/lib/constants.ts` (vision matrices, water presets, salinity adjustment)
and `src/lib/fishSpecies.ts` (species table and lookup).
JavaScript numbers are modelled as real numbers; `Math.exp` as `Real.exp`,
`Math.pow` as real exponentiation, `Math.round x` as `⌊x + 1/2⌋`.
The `Math.random()` draws in `addBioluminescentEffects` are modelled as
explicit real-valued parameters threaded through the pipeline.
An RGBA image buffer is modelled as a list of pixels (the source loop visits
pixels independently, four bytes at a time).
-/

namespace LureVision

noncomputable section

/-- A triple of real channel values, standing for the `number[]` RGB triples
passed between pipeline stages in the source. -/
structure RGB where
  r : ℝ
  g : ℝ
  b : ℝ

/-- The `VisionType` string union from `types` (five cone cardinalities). -/
inductive VisionType where
  | monochromatic
  | dichromatic
  | trichromatic
  | tetrachromatic
  | pentachromatic
deriving DecidableEq

/-- The `VisionMatrices` record from `constants.ts`. -/
structure VisionMatrices where
  visionType : VisionType
  coneCount : Nat
  coneLabels : List String
  rgbToSpecies : List (List ℝ)
  speciesToRgb : List (List ℝ)
  rodWeights : List ℝ

/-- The `WaterClarity` record: a named preset of base attenuation coefficients. -/
structure WaterClarity where
  name : String
  label : String
  kR : ℝ
  kG : ℝ
  kB : ℝ

/-- The `WaterProperties` record: a clarity preset plus salinity in ppt. -/
structure WaterProperties where
  clarity : WaterClarity
  salinity : ℝ

/-- The `LightCondition` record: rod/cone blend and saturation. -/
structure LightCondition where
  name : String
  label : String
  rodBlend : ℝ
  saturation : ℝ

/-- The `SimulationParams` record passed to `processImage`. -/
structure SimulationParams where
  speciesId : String
  depth : ℝ
  waterProperties : WaterProperties
  lightCondition : LightCondition
  backscatter : Bool

/-- One RGBA pixel of the input `ImageData` (byte values). -/
structure Pixel where
  r : Nat
  g : Nat
  b : Nat
  a : Nat

/-- One RGBA pixel of the output `ImageData`: the three colour bytes as
written by `Math.round(srgb * 255)`, and the copied alpha byte. -/
structure OutPixel where
  r : ℤ
  g : ℤ
  b : ℤ
  a : Nat

/-- `WATER_CLARITY_PRESETS[0]` from `constants.ts`. -/
def clearClarity : WaterClarity :=
  { name := "clear", label := "Clear", kR := 0.30, kG := 0.12, kB := 0.08 }

/-- `WATER_CLARITY_PRESETS[1]` from `constants.ts`. -/
def murkyClarity : WaterClarity :=
  { name := "murky", label := "Murky", kR := 0.60, kG := 0.35, kB := 0.28 }

/-- `WATER_CLARITY_PRESETS[2]` from `constants.ts`. -/
def muddyClarity : WaterClarity :=
  { name := "muddy", label := "Muddy", kR := 1.10, kG := 0.70, kB := 0.60 }

/-- `WATER_CLARITY_PRESETS` from `constants.ts`. -/
def WATER_CLARITY_PRESETS : List WaterClarity :=
  [clearClarity, murkyClarity, muddyClarity]

/-- `LIGHT_CONDITIONS` from `constants.ts`. -/
def LIGHT_CONDITIONS : List LightCondition :=
  [ { name := "bright", label := "Bright Sun", rodBlend := 0.05, saturation := 1.0 },
    { name := "overcast", label := "Overcast", rodBlend := 0.32, saturation := 0.70 },
    { name := "low-light", label := "Low Light", rodBlend := 0.75, saturation := 0.32 } ]

/-- `BASS_VISION_MATRICES` from `constants.ts` (dichromatic baseline). -/
def BASS_VISION_MATRICES : VisionMatrices :=
  { visionType := .dichromatic
    coneCount := 2
    coneLabels := ["LWS", "RH2"]
    rgbToSpecies := [[0.85, 0.25], [0.65, 0.92], [0.15, 0.45]]
    speciesToRgb := [[0.75, 0.15, 0.05], [0.25, 0.85, 0.45]]
    rodWeights := [0.15, 0.75, 0.35] }

/-- `MONOCHROMATIC_VISION_MATRICES` from `constants.ts`. -/
def MONOCHROMATIC_VISION_MATRICES : VisionMatrices :=
  { visionType := .monochromatic
    coneCount := 1
    coneLabels := ["L-cone"]
    rgbToSpecies := [[0.25], [0.85], [0.90]]
    speciesToRgb := [[0.33, 0.33, 0.33]]
    rodWeights := [0.20, 0.60, 0.80] }

/-- `TRICHROMATIC_VISION_MATRICES` from `constants.ts`. -/
def TRICHROMATIC_VISION_MATRICES : VisionMatrices :=
  { visionType := .trichromatic
    coneCount := 3
    coneLabels := ["S-cone", "M-cone", "L-cone"]
    rgbToSpecies := [[0.75, 0.35, 0.95], [0.25, 0.90, 0.65], [0.95, 0.45, 0.15]]
    speciesToRgb := [[0.15, 0.05, 0.95], [0.25, 0.85, 0.45], [0.85, 0.25, 0.05]]
    rodWeights := [0.30, 0.65, 0.50] }

/-- `TETRACHROMATIC_VISION_MATRICES` from `constants.ts`. -/
def TETRACHROMATIC_VISION_MATRICES : VisionMatrices :=
  { visionType := .tetrachromatic
    coneCount := 4
    coneLabels := ["UV", "S-cone", "M-cone", "L-cone"]
    rgbToSpecies :=
      [[0.65, 0.15, 0.25, 0.85], [0.35, 0.45, 0.90, 0.75], [0.85, 0.95, 0.65, 0.25]]
    speciesToRgb :=
      [[0.05, 0.05, 0.75], [0.10, 0.15, 0.85], [0.25, 0.80, 0.45], [0.80, 0.35, 0.10]]
    rodWeights := [0.20, 0.55, 0.75] }

/-- `PENTACHROMATIC_VISION_MATRICES` from `constants.ts`. -/
def PENTACHROMATIC_VISION_MATRICES : VisionMatrices :=
  { visionType := .pentachromatic
    coneCount := 5
    coneLabels := ["UV", "Violet", "Blue", "Green", "Red"]
    rgbToSpecies :=
      [[0.55, 0.25, 0.15, 0.35, 0.95],
       [0.25, 0.35, 0.55, 0.90, 0.65],
       [0.75, 0.85, 0.95, 0.45, 0.15]]
    speciesToRgb :=
      [[0.05, 0.05, 0.65], [0.15, 0.10, 0.85], [0.10, 0.25, 0.90],
       [0.20, 0.85, 0.35], [0.90, 0.25, 0.05]]
    rodWeights := [0.25, 0.50, 0.70] }

/-- Result record of `calculateSalinityAdjustedK` (the `{kR,kG,kB}` object). -/
structure AttenK where
  kR : ℝ
  kG : ℝ
  kB : ℝ

/-- `calculateSalinityAdjustedK` from `constants.ts`. -/
def calculateSalinityAdjustedK (baseK : WaterClarity) (salinity : ℝ) : AttenK :=
  let salinityFactor := salinity / 10
  { kR := baseK.kR * (1 + salinityFactor * 0.008)
    kG := baseK.kG * (1 + salinityFactor * 0.005)
    kB := baseK.kB * (1 + salinityFactor * 0.003) }

/-- One entry of the `FISH_SPECIES` table, restricted to the two fields the
pipeline reads: the id used by `getSpeciesById` and the vision type used by
`getSpeciesVisionMatrices`.  The remaining fields (names, environment, cone
peak wavelengths, salinity range, descriptions) feed only the excluded UI. -/
structure FishSpecies where
  id : String
  visionType : VisionType
deriving DecidableEq

/-- The `FISH_SPECIES` table from `fishSpecies.ts`: every species id with its
declared vision type, in source order. -/
def FISH_SPECIES : List FishSpecies :=
  [ ⟨"deep-sea-lanternfish", .monochromatic⟩,
    ⟨"pacific-hagfish", .monochromatic⟩,
    ⟨"largemouth-bass", .dichromatic⟩,
    ⟨"rainbow-trout", .tetrachromatic⟩,
    ⟨"walleye", .dichromatic⟩,
    ⟨"redfish", .dichromatic⟩,
    ⟨"tarpon", .dichromatic⟩,
    ⟨"deep-sea-anglerfish", .monochromatic⟩,
    ⟨"northern-pike", .dichromatic⟩,
    ⟨"striped-bass", .dichromatic⟩,
    ⟨"bluegill", .dichromatic⟩,
    ⟨"snook", .dichromatic⟩,
    ⟨"goldfish", .trichromatic⟩,
    ⟨"cichlid-haplochromis", .trichromatic⟩,
    ⟨"parrotfish", .trichromatic⟩,
    ⟨"zebrafish", .tetrachromatic⟩,
    ⟨"atlantic-salmon", .tetrachromatic⟩,
    ⟨"bluefin-tuna", .tetrachromatic⟩,
    ⟨"reef-damselfish", .pentachromatic⟩,
    ⟨"mantis-shrimp-family", .pentachromatic⟩,
    ⟨"vampire-squid", .monochromatic⟩,
    ⟨"barreleye-fish", .monochromatic⟩,
    ⟨"silver-spinyfin", .trichromatic⟩,
    ⟨"gulper-eel", .monochromatic⟩,
    ⟨"migrating-lanternfish", .dichromatic⟩,
    ⟨"foureye-butterflyfish", .tetrachromatic⟩,
    ⟨"queen-angelfish", .tetrachromatic⟩,
    ⟨"bluehead-wrasse", .tetrachromatic⟩,
    ⟨"regal-tang", .tetrachromatic⟩,
    ⟨"great-barracuda", .dichromatic⟩,
    ⟨"bull-shark", .monochromatic⟩,
    ⟨"mahi-mahi", .dichromatic⟩,
    ⟨"european-perch", .trichromatic⟩,
    ⟨"common-carp", .tetrachromatic⟩,
    ⟨"channel-catfish", .dichromatic⟩,
    ⟨"northern-pike-enhanced", .trichromatic⟩,
    ⟨"winter-flounder", .trichromatic⟩,
    ⟨"elephant-nose-fish", .dichromatic⟩,
    ⟨"starry-flounder", .trichromatic⟩,
    ⟨"four-eyed-fish", .tetrachromatic⟩ ]

/-- `getSpeciesById` from `fishSpecies.ts`. -/
def getSpeciesById (id : String) : Option FishSpecies :=
  FISH_SPECIES.find? (fun species => species.id == id)

/-- `LureVisionProcessor.getSpeciesVisionMatrices`: resolve a species id to a
vision-matrix table, falling back to the bass (dichromatic) matrices when the
id is unknown. -/
def getSpeciesVisionMatrices (speciesId : String) : VisionMatrices :=
  match getSpeciesById speciesId with
  | none => BASS_VISION_MATRICES
  | some species =>
    match species.visionType with
    | .monochromatic => MONOCHROMATIC_VISION_MATRICES
    | .dichromatic => BASS_VISION_MATRICES
    | .trichromatic => TRICHROMATIC_VISION_MATRICES
    | .tetrachromatic => TETRACHROMATIC_VISION_MATRICES
    | .pentachromatic => PENTACHROMATIC_VISION_MATRICES

/-- Matrix element access `mat[i][j]` on the nested-list matrices. -/
def mEntry (mat : List (List ℝ)) (i j : Nat) : ℝ :=
  (mat.getD i []).getD j 0

/-- Step 1, `applyUnderwaterAttenuation`: Beer-Lambert decay over the
double-pass depth with salinity-adjusted coefficients. -/
def applyUnderwaterAttenuation (rgb : RGB) (depthFeet : ℝ)
    (waterProperties : WaterProperties) : RGB :=
  let depthMeters := depthFeet * 0.3048
  let doublePassDepth := 2 * depthMeters
  let adjustedK :=
    calculateSalinityAdjustedK waterProperties.clarity waterProperties.salinity
  { r := rgb.r * Real.exp (-adjustedK.kR * doublePassDepth)
    g := rgb.g * Real.exp (-adjustedK.kG * doublePassDepth)
    b := rgb.b * Real.exp (-adjustedK.kB * doublePassDepth) }

/-- Step 2a, `rgbToSpeciesResponse`: one response per cone type,
`matrix[0][j]*r + matrix[1][j]*g + matrix[2][j]*b`. -/
def rgbToSpeciesResponse (m : VisionMatrices) (rgb : RGB) : List ℝ :=
  (List.range m.coneCount).map fun coneIndex =>
    mEntry m.rgbToSpecies 0 coneIndex * rgb.r +
    mEntry m.rgbToSpecies 1 coneIndex * rgb.g +
    mEntry m.rgbToSpecies 2 coneIndex * rgb.b

/-- Step 2b, `calculateRodResponse`: dot product with the rod weights. -/
def calculateRodResponse (m : VisionMatrices) (rgb : RGB) : ℝ :=
  m.rodWeights.getD 0 0 * rgb.r + m.rodWeights.getD 1 0 * rgb.g +
    m.rodWeights.getD 2 0 * rgb.b

/-- `adjustSaturation`: interpolate each channel between the Rec.601 luminance
and itself. -/
def adjustSaturation (rgb : RGB) (saturation : ℝ) : RGB :=
  let luminance := 0.299 * rgb.r + 0.587 * rgb.g + 0.114 * rgb.b
  { r := luminance + (rgb.r - luminance) * saturation
    g := luminance + (rgb.g - luminance) * saturation
    b := luminance + (rgb.b - luminance) * saturation }

/-- Step 3, `reconstructSpeciesVision`: inverse projection of the cone
responses, rod blend, then saturation adjustment. -/
def reconstructSpeciesVision (m : VisionMatrices) (speciesCones : List ℝ)
    (rodResponse : ℝ) (lightCondition : LightCondition) : RGB :=
  let coneRgb : RGB :=
    { r := ((List.range m.coneCount).map fun coneIndex =>
        mEntry m.speciesToRgb coneIndex 0 * speciesCones.getD coneIndex 0).sum
      g := ((List.range m.coneCount).map fun coneIndex =>
        mEntry m.speciesToRgb coneIndex 1 * speciesCones.getD coneIndex 0).sum
      b := ((List.range m.coneCount).map fun coneIndex =>
        mEntry m.speciesToRgb coneIndex 2 * speciesCones.getD coneIndex 0).sum }
  let blendFactor := lightCondition.rodBlend
  let mixedRgb : RGB :=
    { r := coneRgb.r * (1 - blendFactor) + rodResponse * blendFactor
      g := coneRgb.g * (1 - blendFactor) + rodResponse * blendFactor
      b := coneRgb.b * (1 - blendFactor) + rodResponse * blendFactor }
  adjustSaturation mixedRgb lightCondition.saturation

/-- `addBioluminescentEffects`: deep-sea ambient decay plus random blue/green
flecks.  The two `Math.random()` draws appear as the parameters `randBlue`
(scaled by 0.02) and `randGreen` (scaled by 0.015), in source call order. -/
def addBioluminescentEffects (rgb : RGB) (depthFeet : ℝ)
    (randBlue randGreen : ℝ) : RGB :=
  let ambientFactor := max 0.01 (Real.exp (-(depthFeet - 100) / 200))
  let bioLumBlue := 0.02 * randBlue
  let bioLumGreen := 0.015 * randGreen
  { r := rgb.r * ambientFactor
    g := rgb.g * ambientFactor + bioLumGreen
    b := rgb.b * ambientFactor + bioLumBlue }

/-- `addBackscatter`: shallow haze blend below 100 ft, bioluminescent
deep-sea branch above. -/
def addBackscatter (rgb : RGB) (depthFeet : ℝ) (randBlue randGreen : ℝ) : RGB :=
  if 100 < depthFeet then
    addBioluminescentEffects rgb depthFeet randBlue randGreen
  else
    let hazeFactor := min (depthFeet / 30) 1 * 0.15
    { r := rgb.r * (1 - hazeFactor) + 0.4 * hazeFactor
      g := rgb.g * (1 - hazeFactor) + 0.5 * hazeFactor
      b := rgb.b * (1 - hazeFactor) + 0.6 * hazeFactor }

/-- Scalar case of `srgbToLinear`: the standard piecewise sRGB decoding. -/
def srgbToLinear1 (c : ℝ) : ℝ :=
  if c ≤ 0.04045 then c / 12.92 else ((c + 0.055) / 1.055) ^ (2.4 : ℝ)

/-- `srgbToLinear`, mapped over the three channels. -/
def srgbToLinear (rgb : RGB) : RGB :=
  { r := srgbToLinear1 rgb.r, g := srgbToLinear1 rgb.g, b := srgbToLinear1 rgb.b }

/-- Scalar case of `linearToSrgb`: piecewise sRGB encoding followed by the
clamp `Math.max(0, Math.min(1, c))`. -/
def linearToSrgb1 (c : ℝ) : ℝ :=
  max 0 (min 1 (if c ≤ 0.0031308 then c * 12.92 else 1.055 * c ^ ((1 : ℝ) / 2.4) - 0.055))

/-- `linearToSrgb`, mapped over the three channels. -/
def linearToSrgb (rgb : RGB) : RGB :=
  { r := linearToSrgb1 rgb.r, g := linearToSrgb1 rgb.g, b := linearToSrgb1 rgb.b }

/-- The byte written back by `Math.round(srgb * 255)`
(`Math.round x = ⌊x + 1/2⌋` on nonnegative values). -/
def encodeChannel (c : ℝ) : ℤ :=
  ⌊c * 255 + 1 / 2⌋

/-- The per-pixel body of the `processImage` loop, for an already-resolved
matrix table `m`.  `rands` carries the pixel's two `Math.random()` draws
(blue first, then green, matching the source call order). -/
def processPixel (m : VisionMatrices) (params : SimulationParams)
    (rands : ℝ × ℝ) (px : Pixel) : OutPixel :=
  let rgb : RGB := { r := px.r / 255, g := px.g / 255, b := px.b / 255 }
  let linearRgb := srgbToLinear rgb
  let attenuatedRgb :=
    applyUnderwaterAttenuation linearRgb params.depth params.waterProperties
  let speciesCones := rgbToSpeciesResponse m attenuatedRgb
  let rodResponse := calculateRodResponse m attenuatedRgb
  let speciesRgb :=
    reconstructSpeciesVision m speciesCones rodResponse params.lightCondition
  let finalRgb :=
    if params.backscatter then addBackscatter speciesRgb params.depth rands.1 rands.2
    else speciesRgb
  let srgb := linearToSrgb finalRgb
  { r := encodeChannel srgb.r
    g := encodeChannel srgb.g
    b := encodeChannel srgb.b
    a := px.a }

/-- The pixel loop of `processImage`: pixel `i` consumes the `i`-th pair of
random draws. -/
def processImageAux (m : VisionMatrices) (params : SimulationParams)
    (rands : Nat → ℝ × ℝ) : Nat → List Pixel → List OutPixel
  | _, [] => []
  | i, px :: rest =>
    processPixel m params (rands i) px :: processImageAux m params rands (i + 1) rest

/-- `processImage`: resolve the matrices for the selected species, then map
the per-pixel transform over the buffer. -/
def processImage (params : SimulationParams) (rands : Nat → ℝ × ℝ)
    (img : List Pixel) : List OutPixel :=
  processImageAux (getSpeciesVisionMatrices params.speciesId) params rands 0 img

/-- `processImage` together with the `this.matrices` field of
`LureVisionProcessor`: the field holds whatever the previous call left behind
and is overwritten from `params.speciesId` before any pixel is processed; the
returned pair is (new field value, output buffer). -/
def processImageWithState (matrices : VisionMatrices) (params : SimulationParams)
    (rands : Nat → ℝ × ℝ) (img : List Pixel) : VisionMatrices × List OutPixel :=
  let resolved := getSpeciesVisionMatrices params.speciesId
  (resolved, processImageAux resolved params rands 0 img)

/-- A concrete parameter struct used to instantiate theorems: the default
species at 10 ft in clear fresh water, bright light, no backscatter
(the `DEFAULT_PARAMS` of `constants.ts`). -/
def brightNoBackscatterParams : SimulationParams :=
  { speciesId := "largemouth-bass"
    depth := 10
    waterProperties := { clarity := clearClarity, salinity := 0 }
    lightCondition :=
      { name := "bright", label := "Bright Sun", rodBlend := 0.05, saturation := 1.0 }
    backscatter := false }

/-- Well-formedness of a matrix table: cone count in range, `rgbToSpecies`
3 × coneCount, `speciesToRgb` coneCount × 3, `rodWeights` of length 3. -/
def matricesWellFormed (m : VisionMatrices) : Prop :=
  1 ≤ m.coneCount ∧ m.coneCount ≤ 5 ∧
  m.rgbToSpecies.length = 3 ∧ (∀ row ∈ m.rgbToSpecies, row.length = m.coneCount) ∧
  m.speciesToRgb.length = m.coneCount ∧ (∀ row ∈ m.speciesToRgb, row.length = 3) ∧
  m.rodWeights.length = 3

theorem processImageAux_length (m : VisionMatrices) (p : SimulationParams)
    (rands : Nat → ℝ × ℝ) : ∀ (i : Nat) (img : List Pixel),
    (processImageAux m p rands i img).length = img.length := by
  intro i img
  induction img generalizing i with
  | nil => rfl
  | cons px rest ih => simp [processImageAux, ih]

theorem processImageAux_alpha (m : VisionMatrices) (p : SimulationParams)
    (rands : Nat → ℝ × ℝ) : ∀ (i : Nat) (img : List Pixel),
    (processImageAux m p rands i img).map OutPixel.a = img.map Pixel.a := by
  intro i img
  induction img generalizing i with
  | nil => rfl
  | cons px rest ih =>
    simp only [processImageAux, List.map_cons, ih, List.cons.injEq, and_true]
    rfl

theorem processPixel_rand_irrelevant (m : VisionMatrices) (p : SimulationParams)
    (ra rb : ℝ × ℝ) (px : Pixel) (h : p.backscatter = false ∨ p.depth ≤ 100) :
    processPixel m p ra px = processPixel m p rb px := by
  rcases h with h | h
  · simp only [processPixel, h, Bool.false_eq_true, if_false]
  · cases hb : p.backscatter with
    | false => simp only [processPixel, hb, Bool.false_eq_true, if_false]
    | true =>
      simp only [processPixel, hb, if_true, addBackscatter, if_neg (not_lt.mpr h)]

theorem processImageAux_rand_irrelevant (m : VisionMatrices) (p : SimulationParams)
    (r₁ r₂ : Nat → ℝ × ℝ) (h : p.backscatter = false ∨ p.depth ≤ 100) :
    ∀ (i : Nat) (img : List Pixel),
    processImageAux m p r₁ i img = processImageAux m p r₂ i img := by
  intro i img
  induction img generalizing i with
  | nil => rfl
  | cons px rest ih =>
    simp only [processImageAux, ih, List.cons.injEq, and_true]
    exact processPixel_rand_irrelevant m p (r₁ i) (r₂ i) px h

theorem processImageAux_speciesId_irrelevant (m : VisionMatrices)
    (p : SimulationParams) (s : String) (rands : Nat → ℝ × ℝ) :
    ∀ (i : Nat) (img : List Pixel),
    processImageAux m { p with speciesId := s } rands i img =
      processImageAux m p rands i img := by
  intro i img
  induction img generalizing i with
  | nil => rfl
  | cons px rest ih => simp only [processImageAux, ih, List.cons.injEq, and_true]; rfl

theorem getSpeciesVisionMatrices_of_unknown (id : String)
    (h : ∀ s ∈ FISH_SPECIES, s.id ≠ id) :
    getSpeciesVisionMatrices id = BASS_VISION_MATRICES := by
  unfold getSpeciesVisionMatrices getSpeciesById
  rw [List.find?_eq_none.mpr]
  intro s hs
  simpa using h s hs

/-- C1: for every pixel and every call, `applyUnderwaterAttenuation` returns,
per channel c, `linear_c * exp(-k'_c * 2 * 0.3048 * depth)` where
`k'_c = k_c * (1 + (salinity/10) * s_c)` with channel factors
0.008 (R), 0.005 (G), 0.003 (B). -/
theorem C1_attenuation_formula (rgb : RGB) (depthFeet : ℝ) (wp : WaterProperties) :
    applyUnderwaterAttenuation rgb depthFeet wp =
      { r := rgb.r * Real.exp
          (-(wp.clarity.kR * (1 + wp.salinity / 10 * 0.008)) * (2 * 0.3048 * depthFeet))
        g := rgb.g * Real.exp
          (-(wp.clarity.kG * (1 + wp.salinity / 10 * 0.005)) * (2 * 0.3048 * depthFeet))
        b := rgb.b * Real.exp
          (-(wp.clarity.kB * (1 + wp.salinity / 10 * 0.003)) * (2 * 0.3048 * depthFeet)) } := by
  simp only [applyUnderwaterAttenuation, calculateSalinityAdjustedK, RGB.mk.injEq]
  refine ⟨?_, ?_, ?_⟩ <;> (congr 2; ring)

/-- C2: the output buffer has as many pixels as the input, and every output
pixel's alpha byte equals the corresponding input alpha byte, for every
parameter struct and every sequence of random draws. -/
theorem C2_dimensions_and_alpha (params : SimulationParams) (rands : Nat → ℝ × ℝ)
    (img : List Pixel) :
    (processImage params rands img).length = img.length ∧
    (processImage params rands img).map OutPixel.a = img.map Pixel.a := by
  exact ⟨processImageAux_length _ _ _ 0 img, processImageAux_alpha _ _ _ 0 img⟩

/-- C3: if the requested species id occurs nowhere in the species table, the
pipeline output is pixel-for-pixel identical to the output for the dichromatic
default species id `largemouth-bass`; matrix resolution is total. -/
theorem C3_unknown_species_fallback (p : SimulationParams) (rands : Nat → ℝ × ℝ)
    (img : List Pixel) (h : ∀ s ∈ FISH_SPECIES, s.id ≠ p.speciesId) :
    processImage p rands img =
      processImage { p with speciesId := "largemouth-bass" } rands img := by
  unfold processImage
  rw [show ({ p with speciesId := "largemouth-bass" } : SimulationParams).speciesId =
        "largemouth-bass" from rfl,
    getSpeciesVisionMatrices_of_unknown p.speciesId h,
    show getSpeciesVisionMatrices "largemouth-bass" = BASS_VISION_MATRICES from rfl]
  exact (processImageAux_speciesId_irrelevant _ p "largemouth-bass" rands 0 img).symm

theorem C3_unknown_species_fallback_witness :
    (∀ s ∈ FISH_SPECIES, s.id ≠ "no-such-species") ∧
    processImage { brightNoBackscatterParams with speciesId := "no-such-species" }
        (fun _ => (0, 0)) [⟨10, 20, 30, 40⟩] =
      processImage { { brightNoBackscatterParams with speciesId := "no-such-species" }
          with speciesId := "largemouth-bass" }
        (fun _ => (0, 0)) [⟨10, 20, 30, 40⟩] :=
  ⟨by decide, C3_unknown_species_fallback _ _ _ (by decide)⟩

/-- C7: with backscatter on and depth above 100 ft, every channel is scaled by
the same ambient factor `max 0.01 (exp (-(depth-100)/200))`; then `0.015 ×`
its random draw is added to green and `0.02 ×` an independent draw to blue,
and nothing is added to red. -/
theorem C7_bioluminescence (rgb : RGB) (depthFeet randBlue randGreen : ℝ)
    (h : 100 < depthFeet) :
    addBackscatter rgb depthFeet randBlue randGreen =
      { r := rgb.r * max 0.01 (Real.exp (-(depthFeet - 100) / 200))
        g := rgb.g * max 0.01 (Real.exp (-(depthFeet - 100) / 200)) + 0.015 * randGreen
        b := rgb.b * max 0.01 (Real.exp (-(depthFeet - 100) / 200)) + 0.02 * randBlue } := by
  simp only [addBackscatter, if_pos h, addBioluminescentEffects]

theorem C7_bioluminescence_witness :
    (100 : ℝ) < 150 ∧
    addBackscatter ⟨1, 1, 1⟩ 150 (1 / 4) (1 / 2) =
      { r := (1 : ℝ) * max 0.01 (Real.exp (-((150 : ℝ) - 100) / 200))
        g := (1 : ℝ) * max 0.01 (Real.exp (-((150 : ℝ) - 100) / 200)) + 0.015 * (1 / 2)
        b := (1 : ℝ) * max 0.01 (Real.exp (-((150 : ℝ) - 100) / 200)) + 0.02 * (1 / 4) } :=
  ⟨by norm_num, C7_bioluminescence ⟨1, 1, 1⟩ 150 (1 / 4) (1 / 2) (by norm_num)⟩

/-- C8: apart from the bioluminescence randomness, the pipeline is stateless
and deterministic — with backscatter off or depth at most 100 ft, the output
buffer is independent of the processor's carried-over matrix state and of the
random draw sequence, so any two invocations agree bit for bit. -/
theorem C8_stateless_deterministic (st₁ st₂ : VisionMatrices)
    (p : SimulationParams) (r₁ r₂ : Nat → ℝ × ℝ) (img : List Pixel)
    (h : p.backscatter = false ∨ p.depth ≤ 100) :
    (processImageWithState st₁ p r₁ img).2 = (processImageWithState st₂ p r₂ img).2 := by
  simp only [processImageWithState]
  exact processImageAux_rand_irrelevant _ p r₁ r₂ h 0 img

theorem C8_stateless_deterministic_witness :
    (brightNoBackscatterParams.backscatter = false ∨
      brightNoBackscatterParams.depth ≤ 100) ∧
    (processImageWithState TRICHROMATIC_VISION_MATRICES brightNoBackscatterParams
        (fun _ => (0, 0)) [⟨5, 6, 7, 8⟩]).2 =
      (processImageWithState BASS_VISION_MATRICES brightNoBackscatterParams
        (fun _ => (1, 1)) [⟨5, 6, 7, 8⟩]).2 :=
  ⟨Or.inl rfl, C8_stateless_deterministic _ _ _ _ _ _ (Or.inl rfl)⟩

/-- C9: each of the five canonical vision-matrix tables satisfies the
dimension invariant: cone count between 1 and 5, `rgbToSpecies` with 3 rows of
exactly coneCount entries, `speciesToRgb` with coneCount rows of 3 entries,
and `rodWeights` of length 3. -/
theorem C9_matrix_dimension_invariants :
    matricesWellFormed MONOCHROMATIC_VISION_MATRICES ∧
    matricesWellFormed BASS_VISION_MATRICES ∧
    matricesWellFormed TRICHROMATIC_VISION_MATRICES ∧
    matricesWellFormed TETRACHROMATIC_VISION_MATRICES ∧
    matricesWellFormed PENTACHROMATIC_VISION_MATRICES := by
  refine ⟨?_, ?_, ?_, ?_, ?_⟩ <;>
    simp [matricesWellFormed, MONOCHROMATIC_VISION_MATRICES, BASS_VISION_MATRICES,
      TRICHROMATIC_VISION_MATRICES, TETRACHROMATIC_VISION_MATRICES,
      PENTACHROMATIC_VISION_MATRICES]

theorem atten_mono_helper (x K d₁ d₂ : ℝ) (hx : 0 < x) (hK : 0 < K) (hd : d₁ < d₂) :
    x * Real.exp (-K * (2 * (d₂ * 0.3048))) < x * Real.exp (-K * (2 * (d₁ * 0.3048))) := by
  apply mul_lt_mul_of_pos_left _ hx
  apply Real.exp_lt_exp.mpr
  nlinarith

/-- C5 counterexample: with the clear-water preset (all k strictly positive),
salinity 0 and depths 1 < 2, a zero input channel yields the same attenuated
value at both depths, so the attenuated value is not strictly decreasing in
depth for every channel value. -/
theorem C5_monotonicity_counterexample :
    0 < clearClarity.kR ∧ 0 < clearClarity.kG ∧ 0 < clearClarity.kB ∧
    (1 : ℝ) < 2 ∧
    (applyUnderwaterAttenuation ⟨0, 0, 0⟩ 2 { clarity := clearClarity, salinity := 0 }).r =
      (applyUnderwaterAttenuation ⟨0, 0, 0⟩ 1 { clarity := clearClarity, salinity := 0 }).r := by
  refine ⟨?_, ?_, ?_, by norm_num, ?_⟩ <;>
    simp [clearClarity, applyUnderwaterAttenuation] <;> norm_num

/-- C5 (amended): for fixed clarity with all base coefficients positive, a
salinity in the documented 0–40 ppt range, and strictly positive linear
channel values, each attenuated channel value is strictly decreasing in
depth. -/
theorem C5_attenuation_strict_mono (rgb : RGB) (wp : WaterProperties)
    (hkR : 0 < wp.clarity.kR) (hkG : 0 < wp.clarity.kG) (hkB : 0 < wp.clarity.kB)
    (hs0 : 0 ≤ wp.salinity) (hs40 : wp.salinity ≤ 40)
    (hr : 0 < rgb.r) (hg : 0 < rgb.g) (hb : 0 < rgb.b)
    (d₁ d₂ : ℝ) (hd : d₁ < d₂) :
    (applyUnderwaterAttenuation rgb d₂ wp).r < (applyUnderwaterAttenuation rgb d₁ wp).r ∧
    (applyUnderwaterAttenuation rgb d₂ wp).g < (applyUnderwaterAttenuation rgb d₁ wp).g ∧
    (applyUnderwaterAttenuation rgb d₂ wp).b < (applyUnderwaterAttenuation rgb d₁ wp).b := by
  simp only [applyUnderwaterAttenuation, calculateSalinityAdjustedK]
  refine ⟨atten_mono_helper _ _ _ _ hr ?_ hd, atten_mono_helper _ _ _ _ hg ?_ hd,
    atten_mono_helper _ _ _ _ hb ?_ hd⟩ <;> nlinarith

theorem C5_attenuation_strict_mono_witness :
    0 < clearClarity.kR ∧ 0 < clearClarity.kG ∧ 0 < clearClarity.kB ∧
    (0 : ℝ) ≤ 0 ∧ (0 : ℝ) ≤ 40 ∧
    (0 : ℝ) < 1 ∧ (0 : ℝ) < 5 ∧
    (applyUnderwaterAttenuation ⟨1, 1, 1⟩ 5 { clarity := clearClarity, salinity := 0 }).r <
      (applyUnderwaterAttenuation ⟨1, 1, 1⟩ 0 { clarity := clearClarity, salinity := 0 }).r ∧
    (applyUnderwaterAttenuation ⟨1, 1, 1⟩ 5 { clarity := clearClarity, salinity := 0 }).g <
      (applyUnderwaterAttenuation ⟨1, 1, 1⟩ 0 { clarity := clearClarity, salinity := 0 }).g ∧
    (applyUnderwaterAttenuation ⟨1, 1, 1⟩ 5 { clarity := clearClarity, salinity := 0 }).b <
      (applyUnderwaterAttenuation ⟨1, 1, 1⟩ 0 { clarity := clearClarity, salinity := 0 }).b := by
  have h := C5_attenuation_strict_mono ⟨1, 1, 1⟩ { clarity := clearClarity, salinity := 0 }
    (by norm_num [clearClarity]) (by norm_num [clearClarity]) (by norm_num [clearClarity])
    (by norm_num) (by norm_num) (by norm_num) (by norm_num) (by norm_num)
    0 5 (by norm_num)
  refine ⟨by norm_num [clearClarity], by norm_num [clearClarity], by norm_num [clearClarity],
    by norm_num, by norm_num, by norm_num, by norm_num, h.1, h.2.1, h.2.2⟩

theorem linearToSrgb1_mem_unit (c : ℝ) : 0 ≤ linearToSrgb1 c ∧ linearToSrgb1 c ≤ 1 := by
  unfold linearToSrgb1
  exact ⟨le_max_left _ _, max_le (by norm_num) (min_le_left _ _)⟩

theorem encodeChannel_mem_byte {c : ℝ} (h0 : 0 ≤ c) (h1 : c ≤ 1) :
    0 ≤ encodeChannel c ∧ encodeChannel c ≤ 255 := by
  unfold encodeChannel
  constructor
  · apply Int.le_floor.mpr
    push_cast
    nlinarith
  · have h : (⌊c * 255 + 1 / 2⌋ : ℤ) < 256 := by
      apply Int.floor_lt.mpr
      push_cast
      nlinarith
    omega

/-- C10: `linearToSrgb` clamps every channel to [0,1] for every real input,
including overshoot above 1 and negative values, so the byte each pipeline
output channel encodes (`Math.round(srgb*255)`) always lies in [0,255]. -/
theorem C10_encoded_output_in_range :
    (∀ c : ℝ, 0 ≤ linearToSrgb1 c ∧ linearToSrgb1 c ≤ 1) ∧
    (∀ (m : VisionMatrices) (p : SimulationParams) (rands : ℝ × ℝ) (px : Pixel),
      (0 ≤ (processPixel m p rands px).r ∧ (processPixel m p rands px).r ≤ 255) ∧
      (0 ≤ (processPixel m p rands px).g ∧ (processPixel m p rands px).g ≤ 255) ∧
      (0 ≤ (processPixel m p rands px).b ∧ (processPixel m p rands px).b ≤ 255)) := by
  refine ⟨fun c => linearToSrgb1_mem_unit c, fun m p rands px => ⟨?_, ?_, ?_⟩⟩ <;>
    exact encodeChannel_mem_byte (linearToSrgb1_mem_unit _).1 (linearToSrgb1_mem_unit _).2

theorem rpow_inv24_rpow24 (x : ℝ) (hx : 0 ≤ x) :
    (x ^ ((1 : ℝ) / 2.4)) ^ (2.4 : ℝ) = x := by
  rw [← Real.rpow_mul hx, show ((1 : ℝ) / 2.4) * 2.4 = 1 by norm_num, Real.rpow_one]

theorem rpow24_rpow_inv24 (x : ℝ) (hx : 0 ≤ x) :
    (x ^ (2.4 : ℝ)) ^ ((1 : ℝ) / 2.4) = x := by
  rw [← Real.rpow_mul hx, show (2.4 : ℝ) * (1 / 2.4) = 1 by norm_num, Real.rpow_one]

theorem le_rpow_inv24_of_pow_le {t a : ℝ} (ht : 0 ≤ t) (ha : 0 ≤ a)
    (h : a ^ (12 : ℕ) ≤ t ^ (5 : ℕ)) : a ≤ t ^ ((1 : ℝ) / 2.4) := by
  have key : (a ^ (12 : ℕ)) ^ ((1 : ℝ) / 12) ≤ (t ^ (5 : ℕ)) ^ ((1 : ℝ) / 12) :=
    Real.rpow_le_rpow (by positivity) h (by norm_num)
  calc a = (a ^ ((12 : ℕ) : ℝ)) ^ ((1 : ℝ) / 12) := by
        rw [← Real.rpow_mul ha]; norm_num
    _ = (a ^ (12 : ℕ)) ^ ((1 : ℝ) / 12) := by rw [Real.rpow_natCast]
    _ ≤ (t ^ (5 : ℕ)) ^ ((1 : ℝ) / 12) := key
    _ = (t ^ ((5 : ℕ) : ℝ)) ^ ((1 : ℝ) / 12) := by rw [Real.rpow_natCast]
    _ = t ^ ((1 : ℝ) / 2.4) := by rw [← Real.rpow_mul ht]; norm_num

theorem rpow_inv24_le_of_pow_le {t B : ℝ} (ht : 0 ≤ t) (hB : 0 ≤ B)
    (h : t ^ (5 : ℕ) ≤ B ^ (12 : ℕ)) : t ^ ((1 : ℝ) / 2.4) ≤ B := by
  have key : (t ^ (5 : ℕ)) ^ ((1 : ℝ) / 12) ≤ (B ^ (12 : ℕ)) ^ ((1 : ℝ) / 12) :=
    Real.rpow_le_rpow (by positivity) h (by norm_num)
  calc t ^ ((1 : ℝ) / 2.4) = (t ^ ((5 : ℕ) : ℝ)) ^ ((1 : ℝ) / 12) := by
        rw [← Real.rpow_mul ht]; norm_num
    _ = (t ^ (5 : ℕ)) ^ ((1 : ℝ) / 12) := by rw [Real.rpow_natCast]
    _ ≤ (B ^ (12 : ℕ)) ^ ((1 : ℝ) / 12) := key
    _ = (B ^ ((12 : ℕ) : ℝ)) ^ ((1 : ℝ) / 12) := by rw [Real.rpow_natCast]
    _ = B := by rw [← Real.rpow_mul hB]; norm_num

theorem lt_rpow24_of_pow_lt {t a : ℝ} (ht : 0 ≤ t) (ha : 0 ≤ a)
    (h : a ^ (5 : ℕ) < t ^ (12 : ℕ)) : a < t ^ (2.4 : ℝ) := by
  have key : (a ^ (5 : ℕ)) ^ ((1 : ℝ) / 5) < (t ^ (12 : ℕ)) ^ ((1 : ℝ) / 5) :=
    Real.rpow_lt_rpow (by positivity) h (by norm_num)
  calc a = (a ^ ((5 : ℕ) : ℝ)) ^ ((1 : ℝ) / 5) := by
        rw [← Real.rpow_mul ha]; norm_num
    _ = (a ^ (5 : ℕ)) ^ ((1 : ℝ) / 5) := by rw [Real.rpow_natCast]
    _ < (t ^ (12 : ℕ)) ^ ((1 : ℝ) / 5) := key
    _ = (t ^ ((12 : ℕ) : ℝ)) ^ ((1 : ℝ) / 5) := by rw [Real.rpow_natCast]
    _ = t ^ (2.4 : ℝ) := by rw [← Real.rpow_mul ht]; norm_num

theorem rpow24_le_of_pow_le {t B : ℝ} (ht : 0 ≤ t) (hB : 0 ≤ B)
    (h : t ^ (12 : ℕ) ≤ B ^ (5 : ℕ)) : t ^ (2.4 : ℝ) ≤ B := by
  have key : (t ^ (12 : ℕ)) ^ ((1 : ℝ) / 5) ≤ (B ^ (5 : ℕ)) ^ ((1 : ℝ) / 5) :=
    Real.rpow_le_rpow (by positivity) h (by norm_num)
  calc t ^ (2.4 : ℝ) = (t ^ ((12 : ℕ) : ℝ)) ^ ((1 : ℝ) / 5) := by
        rw [← Real.rpow_mul ht]; norm_num
    _ = (t ^ (12 : ℕ)) ^ ((1 : ℝ) / 5) := by rw [Real.rpow_natCast]
    _ ≤ (B ^ (5 : ℕ)) ^ ((1 : ℝ) / 5) := key
    _ = (B ^ ((5 : ℕ) : ℝ)) ^ ((1 : ℝ) / 5) := by rw [Real.rpow_natCast]
    _ = B := by rw [← Real.rpow_mul hB]; norm_num

theorem srgb_fact_low : (0.09042 : ℝ) ^ (12 : ℕ) ≤ (0.0031308 : ℝ) ^ (5 : ℕ) := by
  norm_num

theorem srgb_fact_threshold :
    (0.0031308 : ℝ) ^ (5 : ℕ) < ((1909 : ℝ) / 21100) ^ (12 : ℕ) := by
  norm_num

theorem srgb_fact_upper :
    ((1909 : ℝ) / 21100) ^ (12 : ℕ) ≤ (0.0031309 : ℝ) ^ (5 : ℕ) := by
  norm_num

theorem srgb_fact_strip : ((809 : ℝ) / 258400) ^ (5 : ℕ) ≤ (0.09052 : ℝ) ^ (12 : ℕ) := by
  norm_num

theorem roundtrip_linear_channel (x : ℝ) (h0 : 0 ≤ x) (h1 : x ≤ 1) :
    |srgbToLinear1 (linearToSrgb1 x) - x| ≤ 1e-4 := by
  by_cases hx : x ≤ 0.0031308
  · have hy : linearToSrgb1 x = x * 12.92 := by
      unfold linearToSrgb1
      rw [if_pos hx, min_eq_right (by nlinarith), max_eq_right (by nlinarith)]
    have hback : srgbToLinear1 (x * 12.92) = x * 12.92 / 12.92 := by
      unfold srgbToLinear1
      rw [if_pos (by nlinarith)]
    rw [hy, hback, mul_div_assoc, div_self (by norm_num : (12.92 : ℝ) ≠ 0), mul_one,
      sub_self, abs_zero]
    norm_num
  · push_neg at hx
    have hz0 : 0 ≤ x ^ ((1 : ℝ) / 2.4) := Real.rpow_nonneg h0 _
    have hz1 : x ^ ((1 : ℝ) / 2.4) ≤ 1 := Real.rpow_le_one h0 h1 (by norm_num)
    have hzlow : (0.09042 : ℝ) ≤ x ^ ((1 : ℝ) / 2.4) := by
      calc (0.09042 : ℝ) ≤ (0.0031308 : ℝ) ^ ((1 : ℝ) / 2.4) :=
            le_rpow_inv24_of_pow_le (by norm_num) (by norm_num) srgb_fact_low
        _ ≤ x ^ ((1 : ℝ) / 2.4) :=
            Real.rpow_le_rpow (by norm_num) (le_of_lt hx) (by norm_num)
    have hy : linearToSrgb1 x = 1.055 * x ^ ((1 : ℝ) / 2.4) - 0.055 := by
      unfold linearToSrgb1
      rw [if_neg (not_le.mpr hx), min_eq_right (by nlinarith), max_eq_right (by nlinarith)]
    rw [hy]
    by_cases hyS : 1.055 * x ^ ((1 : ℝ) / 2.4) - 0.055 ≤ 0.04045
    · have hback : srgbToLinear1 (1.055 * x ^ ((1 : ℝ) / 2.4) - 0.055) =
          (1.055 * x ^ ((1 : ℝ) / 2.4) - 0.055) / 12.92 := by
        unfold srgbToLinear1
        rw [if_pos hyS]
      have hzq : x ^ ((1 : ℝ) / 2.4) ≤ 1909 / 21100 := by linarith
      have hxup : x ≤ 0.0031309 := by
        calc x = (x ^ ((1 : ℝ) / 2.4)) ^ (2.4 : ℝ) := (rpow_inv24_rpow24 x h0).symm
          _ ≤ ((1909 : ℝ) / 21100) ^ (2.4 : ℝ) := Real.rpow_le_rpow hz0 hzq (by norm_num)
          _ ≤ 0.0031309 := rpow24_le_of_pow_le (by norm_num) (by norm_num) srgb_fact_upper
      have hdiv : 12.92 * ((1.055 * x ^ ((1 : ℝ) / 2.4) - 0.055) / 12.92) =
          1.055 * x ^ ((1 : ℝ) / 2.4) - 0.055 := by
        field_simp
      rw [hback, abs_le]
      constructor <;> linarith
    · push_neg at hyS
      have hback : srgbToLinear1 (1.055 * x ^ ((1 : ℝ) / 2.4) - 0.055) =
          ((1.055 * x ^ ((1 : ℝ) / 2.4) - 0.055 + 0.055) / 1.055) ^ (2.4 : ℝ) := by
        unfold srgbToLinear1
        rw [if_neg (not_le.mpr hyS)]
      have harg : (1.055 * x ^ ((1 : ℝ) / 2.4) - 0.055 + 0.055) / 1.055 =
          x ^ ((1 : ℝ) / 2.4) := by
        field_simp
      rw [hback, harg, rpow_inv24_rpow24 x h0, sub_self, abs_zero]
      norm_num

theorem roundtrip_srgb_channel (y : ℝ) (h0 : 0 ≤ y) (h1 : y ≤ 1) :
    |linearToSrgb1 (srgbToLinear1 y) - y| ≤ 1e-4 := by
  by_cases hyS : y ≤ 0.04045
  · have hlin : srgbToLinear1 y = y / 12.92 := by
      unfold srgbToLinear1
      rw [if_pos hyS]
    rw [hlin]
    have hyw : 12.92 * (y / 12.92) = y := by field_simp
    by_cases hT : y / 12.92 ≤ 0.0031308
    · have hback : linearToSrgb1 (y / 12.92) = y := by
        unfold linearToSrgb1
        rw [if_pos hT, div_mul_cancel₀ _ (by norm_num : (12.92 : ℝ) ≠ 0),
          min_eq_right h1, max_eq_right h0]
      rw [hback, sub_self, abs_zero]
      norm_num
    · push_neg at hT
      have hw0 : (0 : ℝ) ≤ y / 12.92 := by positivity
      have hwup : y / 12.92 ≤ 809 / 258400 := by linarith
      have hzlow1 : (0.09042 : ℝ) ≤ (0.0031308 : ℝ) ^ ((1 : ℝ) / 2.4) :=
        le_rpow_inv24_of_pow_le (by norm_num) (by norm_num) srgb_fact_low
      have hzlow : (0.0031308 : ℝ) ^ ((1 : ℝ) / 2.4) < (y / 12.92) ^ ((1 : ℝ) / 2.4) :=
        Real.rpow_lt_rpow (by norm_num) hT (by norm_num)
      have hzup : (y / 12.92) ^ ((1 : ℝ) / 2.4) ≤ 0.09052 := by
        calc (y / 12.92) ^ ((1 : ℝ) / 2.4) ≤ ((809 : ℝ) / 258400) ^ ((1 : ℝ) / 2.4) :=
              Real.rpow_le_rpow hw0 hwup (by norm_num)
          _ ≤ 0.09052 := rpow_inv24_le_of_pow_le (by norm_num) (by norm_num) srgb_fact_strip
      have hback : linearToSrgb1 (y / 12.92) =
          1.055 * (y / 12.92) ^ ((1 : ℝ) / 2.4) - 0.055 := by
        unfold linearToSrgb1
        rw [if_neg (not_le.mpr hT), min_eq_right (by nlinarith), max_eq_right (by nlinarith)]
      rw [hback, abs_le]
      constructor <;> linarith
  · push_neg at hyS
    have hlin : srgbToLinear1 y = ((y + 0.055) / 1.055) ^ (2.4 : ℝ) := by
      unfold srgbToLinear1
      rw [if_neg (not_le.mpr hyS)]
    have hu : 1.055 * ((y + 0.055) / 1.055) = y + 0.055 := by field_simp
    have huq : (1909 : ℝ) / 21100 < (y + 0.055) / 1.055 := by linarith
    have hu0 : (0 : ℝ) ≤ (y + 0.055) / 1.055 := by positivity
    have hlinT : (0.0031308 : ℝ) < ((y + 0.055) / 1.055) ^ (2.4 : ℝ) := by
      calc (0.0031308 : ℝ) < ((1909 : ℝ) / 21100) ^ (2.4 : ℝ) :=
            lt_rpow24_of_pow_lt (by norm_num) (by norm_num) srgb_fact_threshold
        _ < ((y + 0.055) / 1.055) ^ (2.4 : ℝ) :=
            Real.rpow_lt_rpow (by norm_num) huq (by norm_num)
    have hback : linearToSrgb1 (((y + 0.055) / 1.055) ^ (2.4 : ℝ)) = y := by
      unfold linearToSrgb1
      rw [if_neg (not_le.mpr hlinT), rpow24_rpow_inv24 _ hu0,
        show 1.055 * ((y + 0.055) / 1.055) - 0.055 = y by linarith,
        min_eq_right h1, max_eq_right h0]
    rw [hlin, hback, sub_self, abs_zero]
    norm_num

/-- C6: the sRGB decode/encode pair is a round trip to within 1e-4 on each
channel: for every linear triple in the unit cube,
`srgbToLinear (linearToSrgb x)` is within 1e-4 of `x` componentwise, and for
every sRGB triple in the unit cube, `linearToSrgb (srgbToLinear y)` is within
1e-4 of `y` componentwise. -/
theorem C6_srgb_roundtrip (x y : RGB)
    (hx : (0 ≤ x.r ∧ x.r ≤ 1) ∧ (0 ≤ x.g ∧ x.g ≤ 1) ∧ (0 ≤ x.b ∧ x.b ≤ 1))
    (hy : (0 ≤ y.r ∧ y.r ≤ 1) ∧ (0 ≤ y.g ∧ y.g ≤ 1) ∧ (0 ≤ y.b ∧ y.b ≤ 1)) :
    (|(srgbToLinear (linearToSrgb x)).r - x.r| ≤ 1e-4 ∧
      |(srgbToLinear (linearToSrgb x)).g - x.g| ≤ 1e-4 ∧
      |(srgbToLinear (linearToSrgb x)).b - x.b| ≤ 1e-4) ∧
    (|(linearToSrgb (srgbToLinear y)).r - y.r| ≤ 1e-4 ∧
      |(linearToSrgb (srgbToLinear y)).g - y.g| ≤ 1e-4 ∧
      |(linearToSrgb (srgbToLinear y)).b - y.b| ≤ 1e-4) :=
  ⟨⟨roundtrip_linear_channel x.r hx.1.1 hx.1.2,
    roundtrip_linear_channel x.g hx.2.1.1 hx.2.1.2,
    roundtrip_linear_channel x.b hx.2.2.1 hx.2.2.2⟩,
   ⟨roundtrip_srgb_channel y.r hy.1.1 hy.1.2,
    roundtrip_srgb_channel y.g hy.2.1.1 hy.2.1.2,
    roundtrip_srgb_channel y.b hy.2.2.1 hy.2.2.2⟩⟩

theorem C6_srgb_roundtrip_witness :
    (((0 : ℝ) ≤ 0 ∧ (0 : ℝ) ≤ 1) ∧ ((0 : ℝ) ≤ 0 ∧ (0 : ℝ) ≤ 1) ∧
      ((0 : ℝ) ≤ 0 ∧ (0 : ℝ) ≤ 1)) ∧
    (((0 : ℝ) ≤ 1 ∧ (1 : ℝ) ≤ 1) ∧ ((0 : ℝ) ≤ 1 ∧ (1 : ℝ) ≤ 1) ∧
      ((0 : ℝ) ≤ 1 ∧ (1 : ℝ) ≤ 1)) ∧
    (|(srgbToLinear (linearToSrgb ⟨0, 0, 0⟩)).r - (0 : ℝ)| ≤ 1e-4 ∧
      |(linearToSrgb (srgbToLinear ⟨1, 1, 1⟩)).r - (1 : ℝ)| ≤ 1e-4) := by
  have h := C6_srgb_roundtrip ⟨0, 0, 0⟩ ⟨1, 1, 1⟩
    ⟨⟨le_refl 0, by norm_num⟩, ⟨le_refl 0, by norm_num⟩, ⟨le_refl 0, by norm_num⟩⟩
    ⟨⟨by norm_num, le_refl 1⟩, ⟨by norm_num, le_refl 1⟩, ⟨by norm_num, le_refl 1⟩⟩
  exact ⟨⟨⟨le_refl 0, by norm_num⟩, ⟨le_refl 0, by norm_num⟩, ⟨le_refl 0, by norm_num⟩⟩,
    ⟨⟨by norm_num, le_refl 1⟩, ⟨by norm_num, le_refl 1⟩, ⟨by norm_num, le_refl 1⟩⟩,
    h.1.1, h.2.1⟩

/-- Parameter struct exhibiting the backscatter/saturation interaction: the
saturation is 0, but backscatter is enabled at 30 ft in clear fresh water. -/
def satZeroBackscatterParams : SimulationParams :=
  { speciesId := "largemouth-bass"
    depth := 30
    waterProperties := { clarity := clearClarity, salinity := 0 }
    lightCondition :=
      { name := "bright", label := "Bright Sun", rodBlend := 0.05, saturation := 0 }
    backscatter := true }

theorem c4_black_pixel_value :
    processPixel BASS_VISION_MATRICES satZeroBackscatterParams (0, 0) ⟨0, 0, 0, 255⟩ =
      { r := encodeChannel (linearToSrgb1 0.06)
        g := encodeChannel (linearToSrgb1 0.075)
        b := encodeChannel (linearToSrgb1 0.09)
        a := 255 } := by
  simp only [processPixel, satZeroBackscatterParams]
  norm_num [srgbToLinear, srgbToLinear1, applyUnderwaterAttenuation,
    calculateSalinityAdjustedK, clearClarity, rgbToSpeciesResponse,
    calculateRodResponse, reconstructSpeciesVision, adjustSaturation,
    addBackscatter, mEntry, BASS_VISION_MATRICES, List.range_succ, linearToSrgb]

theorem c4_red_byte : encodeChannel (linearToSrgb1 0.06) ≤ 71 := by
  have hup : (0.06 : ℝ) ^ ((1 : ℝ) / 2.4) ≤ 0.315 :=
    rpow_inv24_le_of_pow_le (by norm_num) (by norm_num)
      (by norm_num : (0.06 : ℝ) ^ (5 : ℕ) ≤ (0.315 : ℝ) ^ (12 : ℕ))
  have hlo : (0.3 : ℝ) ≤ (0.06 : ℝ) ^ ((1 : ℝ) / 2.4) :=
    le_rpow_inv24_of_pow_le (by norm_num) (by norm_num)
      (by norm_num : (0.3 : ℝ) ^ (12 : ℕ) ≤ (0.06 : ℝ) ^ (5 : ℕ))
  have hv : linearToSrgb1 0.06 = 1.055 * (0.06 : ℝ) ^ ((1 : ℝ) / 2.4) - 0.055 := by
    unfold linearToSrgb1
    rw [if_neg (by norm_num), min_eq_right (by nlinarith), max_eq_right (by nlinarith)]
  unfold encodeChannel
  rw [hv]
  have hlt : ⌊(1.055 * (0.06 : ℝ) ^ ((1 : ℝ) / 2.4) - 0.055) * 255 + 1 / 2⌋ < (72 : ℤ) := by
    apply Int.floor_lt.mpr
    push_cast
    nlinarith
  omega

theorem c4_blue_byte : 83 ≤ encodeChannel (linearToSrgb1 0.09) := by
  have hlo : (0.36 : ℝ) ≤ (0.09 : ℝ) ^ ((1 : ℝ) / 2.4) :=
    le_rpow_inv24_of_pow_le (by norm_num) (by norm_num)
      (by norm_num : (0.36 : ℝ) ^ (12 : ℕ) ≤ (0.09 : ℝ) ^ (5 : ℕ))
  have hup : (0.09 : ℝ) ^ ((1 : ℝ) / 2.4) ≤ 0.4 :=
    rpow_inv24_le_of_pow_le (by norm_num) (by norm_num)
      (by norm_num : (0.09 : ℝ) ^ (5 : ℕ) ≤ (0.4 : ℝ) ^ (12 : ℕ))
  have hv : linearToSrgb1 0.09 = 1.055 * (0.09 : ℝ) ^ ((1 : ℝ) / 2.4) - 0.055 := by
    unfold linearToSrgb1
    rw [if_neg (by norm_num), min_eq_right (by nlinarith), max_eq_right (by nlinarith)]
  unfold encodeChannel
  rw [hv]
  apply Int.le_floor.mpr
  push_cast
  nlinarith

/-- C4 counterexample: with saturation 0 but backscatter enabled at 30 ft, a
black input pixel comes out with a red byte at most 71 and a blue byte at
least 83 — the output channels are far from equal, so the claim fails when it
places no restriction on the backscatter flag. -/
theorem C4_saturation_gray_counterexample :
    satZeroBackscatterParams.lightCondition.saturation = 0 ∧
    ((processImage satZeroBackscatterParams (fun _ => (0, 0)) [⟨0, 0, 0, 255⟩]).getD 0
        ⟨0, 0, 0, 0⟩).r + 10 ≤
      ((processImage satZeroBackscatterParams (fun _ => (0, 0)) [⟨0, 0, 0, 255⟩]).getD 0
        ⟨0, 0, 0, 0⟩).b := by
  refine ⟨rfl, ?_⟩
  have himg : processImage satZeroBackscatterParams (fun _ => (0, 0)) [⟨0, 0, 0, 255⟩] =
      [processPixel BASS_VISION_MATRICES satZeroBackscatterParams (0, 0) ⟨0, 0, 0, 255⟩] :=
    rfl
  rw [himg, c4_black_pixel_value]
  simpa using add_le_of_le_sub_right (by linarith [c4_red_byte, c4_blue_byte])

/-- C4 (amended): with saturation 0 and backscatter disabled, the output R, G
and B bytes of every pixel are exactly equal, for every input pixel, matrix
table, depth, water and light setting. -/
theorem C4_saturation_zero_gray (m : VisionMatrices) (p : SimulationParams)
    (rands : ℝ × ℝ) (px : Pixel)
    (hsat : p.lightCondition.saturation = 0) (hbs : p.backscatter = false) :
    (processPixel m p rands px).r = (processPixel m p rands px).g ∧
    (processPixel m p rands px).g = (processPixel m p rands px).b := by
  have hrec : ∀ (cones : List ℝ) (rod : ℝ),
      (reconstructSpeciesVision m cones rod p.lightCondition).r =
        (reconstructSpeciesVision m cones rod p.lightCondition).g ∧
      (reconstructSpeciesVision m cones rod p.lightCondition).g =
        (reconstructSpeciesVision m cones rod p.lightCondition).b := by
    intro cones rod
    simp [reconstructSpeciesVision, adjustSaturation, hsat]
  simp only [processPixel, hbs, Bool.false_eq_true, if_false, linearToSrgb]
  obtain ⟨h1, h2⟩ := hrec
    (rgbToSpeciesResponse m (applyUnderwaterAttenuation
      (srgbToLinear { r := px.r / 255, g := px.g / 255, b := px.b / 255 })
      p.depth p.waterProperties))
    (calculateRodResponse m (applyUnderwaterAttenuation
      (srgbToLinear { r := px.r / 255, g := px.g / 255, b := px.b / 255 })
      p.depth p.waterProperties))
  exact ⟨congrArg (fun v => encodeChannel (linearToSrgb1 v)) h1,
    congrArg (fun v => encodeChannel (linearToSrgb1 v)) h2⟩

theorem C4_saturation_zero_gray_witness :
    ({ brightNoBackscatterParams with lightCondition :=
        { name := "bright", label := "Bright Sun", rodBlend := 0.05, saturation := 0 }
      } : SimulationParams).lightCondition.saturation = 0 ∧
    ({ brightNoBackscatterParams with lightCondition :=
        { name := "bright", label := "Bright Sun", rodBlend := 0.05, saturation := 0 }
      } : SimulationParams).backscatter = false ∧
    ((processPixel BASS_VISION_MATRICES
        { brightNoBackscatterParams with lightCondition :=
          { name := "bright", label := "Bright Sun", rodBlend := 0.05, saturation := 0 } }
        (0, 0) ⟨7, 8, 9, 10⟩).r =
      (processPixel BASS_VISION_MATRICES
        { brightNoBackscatterParams with lightCondition :=
          { name := "bright", label := "Bright Sun", rodBlend := 0.05, saturation := 0 } }
        (0, 0) ⟨7, 8, 9, 10⟩).g ∧
    (processPixel BASS_VISION_MATRICES
        { brightNoBackscatterParams with lightCondition :=
          { name := "bright", label := "Bright Sun", rodBlend := 0.05, saturation := 0 } }
        (0, 0) ⟨7, 8, 9, 10⟩).g =
      (processPixel BASS_VISION_MATRICES
        { brightNoBackscatterParams with lightCondition :=
          { name := "bright", label := "Bright Sun", rodBlend := 0.05, saturation := 0 } }
        (0, 0) ⟨7, 8, 9, 10⟩).b) :=
  ⟨rfl, rfl, C4_saturation_zero_gray BASS_VISION_MATRICES _ (0, 0) ⟨7, 8, 9, 10⟩ rfl rfl⟩

end

end LureVision
